import Mathlib

/-!
Shallow embedding of the EQ-platform firmware control logic
(`src/unnamed/part_000`): menu navigation, edit mode, speed
configuration with EEPROM persistence, and the motor run state.

Conventions of the embedding:
* C `int` variables are modelled as `Int`; the C `uint8_t` page index is a
  `Nat` whose arithmetic wraps modulo 256 exactly where the C conversion
  does.
* The EEPROM is a map `Nat → Nat` from addresses to cells; `EEPROM.read`
  returns a byte, modelled by reducing the cell modulo 256.
* Digital pins are `Bool` levels (`true` = HIGH); the limit switches are
  active-low, so a switch "reads active" when its level is `false`.
* Calls to the motion primitive (`stepper.setSpeed`, `stepper.runSpeed`,
  `stepper.setAcceleration`) and to the display are external effects; the
  loop model counts `runSpeed` calls and limit-switch reads so that
  temporal claims about them can be stated.
* `millis()` timing is abstracted: the loop model takes the boolean result
  of `checkTimeoutExpired` for the blink timer as an input.
-/

/-- The firmware's global mutable variables (those the control logic reads
or writes), excluding the raw timing variable `lastUpdateEditModeScreen`
whose role is abstracted into the loop inputs. -/
structure SysState where
  editMode : Bool
  editModeBlinkDark : Bool
  stepperTrackingSpeed : Int
  homeSpeed : Int
  initialStepperTrackingSpeed : Int
  initialHomeSpeed : Int
  motorRunning : Int
  currentPageIndex : Nat
  deriving DecidableEq

/-- Initial values of the globals at declaration time:
`editMode = false`, `editModeBlinkDark = false`, speeds 1 and 100 with
matching snapshots, `motorRunning = 0`, `currentPageIndex = 3`. -/
def initialState : SysState :=
  { editMode := false
    editModeBlinkDark := false
    stepperTrackingSpeed := 1
    homeSpeed := 100
    initialStepperTrackingSpeed := 1
    initialHomeSpeed := 100
    motorRunning := 0
    currentPageIndex := 3 }

/-- EEPROM address of the tracking-speed word (`stepper_speed_address`). -/
def stepper_speed_address : Nat := 0

/-- EEPROM address of the home-speed word (`home_speed_address`). -/
def home_speed_address : Nat := 2

/-- `EEPROM.read(address)`: returns the byte stored at `address`. -/
def EEPROMread (mem : Nat → Nat) (address : Nat) : Nat :=
  mem address % 256

/-- `EEPROM.write(address, value)`: stores a byte at `address` (the C
`byte` argument type truncates the value modulo 256). -/
def EEPROMwrite (mem : Nat → Nat) (address value : Nat) : Nat → Nat :=
  fun a => if a = address then value % 256 else mem a

/-- `writeIntIntoEEPROM(address, number)`: splits `number` into high and
low bytes and stores them big-endian at `address` and `address + 1`.
The C parameter is `int`; every call site passes a speed value, which is
nonnegative (speeds only ever hold values in `[0, 1000]` or bytes read
back from EEPROM), so the byte extraction is modelled on `number.toNat`. -/
def writeIntIntoEEPROM (mem : Nat → Nat) (address : Nat) (number : Int) : Nat → Nat :=
  let byte1 : Nat := number.toNat >>> 8
  let byte2 : Nat := number.toNat &&& 0xFF
  EEPROMwrite (EEPROMwrite mem address byte1) (address + 1) byte2

/-- The 16-bit word decode used by `readSpeedConfigFromEeprom`:
`(EEPROM.read(a) << 8) | EEPROM.read(a + 1)`. -/
def eepromWord (mem : Nat → Nat) (address : Nat) : Nat :=
  (EEPROMread mem address <<< 8) ||| EEPROMread mem (address + 1)

/-- `readSpeedConfigFromEeprom()`: reads both 16-bit words; if both differ
from `0xFFFF` the stored values become the working speeds, otherwise both
working speeds become the defaults 1 and 100; finally the snapshot fields
are set from the working values. -/
def readSpeedConfigFromEeprom (s : SysState) (mem : Nat → Nat) : SysState :=
  let trackingSpeedValue : Nat := eepromWord mem stepper_speed_address
  let homeSpeedValue : Nat := eepromWord mem home_speed_address
  let s1 : SysState :=
    if trackingSpeedValue ≠ 0xFFFF ∧ homeSpeedValue ≠ 0xFFFF then
      { s with stepperTrackingSpeed := (trackingSpeedValue : Int)
               homeSpeed := (homeSpeedValue : Int) }
    else
      { s with stepperTrackingSpeed := 1, homeSpeed := 100 }
  { s1 with initialStepperTrackingSpeed := s1.stepperTrackingSpeed
            initialHomeSpeed := s1.homeSpeed }

/-- The dirty test the firmware repeats verbatim in `updateMainScreen` and
`encoderRotated`:
`stepperTrackingSpeed != initialStepperTrackingSpeed || homeSpeed != initialHomeSpeed`. -/
def isDirty (s : SysState) : Bool :=
  s.stepperTrackingSpeed != s.initialStepperTrackingSpeed
    || s.homeSpeed != s.initialHomeSpeed

/-- `saveSpeedConfiguration()`: writes both working speeds to EEPROM and
copies them into the snapshot fields. -/
def saveSpeedConfiguration (s : SysState) (mem : Nat → Nat) :
    SysState × (Nat → Nat) :=
  let mem1 := writeIntIntoEEPROM mem stepper_speed_address s.stepperTrackingSpeed
  let mem2 := writeIntIntoEEPROM mem1 home_speed_address s.homeSpeed
  ({ s with initialStepperTrackingSpeed := s.stepperTrackingSpeed
            initialHomeSpeed := s.homeSpeed }, mem2)

/-- `startStopButtonPressed()`: toggles `motorRunning` between 0 and 1
(`motorRunning = motorRunning != 0 ? 0 : 1`); the `stepper.setSpeed` /
`setAcceleration` calls are external effects. -/
def startStopButtonPressed (s : SysState) : SysState :=
  { s with motorRunning := if s.motorRunning ≠ 0 then 0 else 1 }

/-- `returnHomePressed()`: sets `motorRunning = -1` unconditionally; the
`stepper.setSpeed(-homeSpeed)` call is an external effect. -/
def returnHomePressed (s : SysState) : SysState :=
  { s with motorRunning := -1 }

/-- `encoderPressed()`: leaves edit mode if active; otherwise dispatches
on `currentPageIndex` (1/2 enter edit mode and stop the motor, 3 toggles
start/stop, 4 starts homing, 5 saves and then sets `currentPageIndex = 0`). -/
def encoderPressed (s : SysState) (mem : Nat → Nat) : SysState × (Nat → Nat) :=
  if s.editMode then
    ({ s with editMode := false }, mem)
  else
    match s.currentPageIndex with
    | 1 => ({ s with editMode := true, motorRunning := 0 }, mem)
    | 2 => ({ s with editMode := true, motorRunning := 0 }, mem)
    | 3 => (startStopButtonPressed s, mem)
    | 4 => (returnHomePressed s, mem)
    | 5 =>
      let r := saveSpeedConfiguration s mem
      ({ r.1 with currentPageIndex := 0 }, r.2)
    | _ => (s, mem)

/-- `encoderRotated()`: `dtState == HIGH` means `change = 1`, otherwise
`change = -1`.  In edit mode the selected speed is adjusted and clamped to
`[1, 1000]`; otherwise the `uint8_t` page index is advanced (wrapping
modulo 256 as the C conversion does) and wrapped into `[1, maxPage]`,
where `maxPage` is 5 when the configuration is dirty and 4 otherwise. -/
def encoderRotated (s : SysState) (dtHigh : Bool) : SysState :=
  let change : Int := if dtHigh then 1 else -1
  if s.editMode then
    match s.currentPageIndex with
    | 1 =>
      let t := s.stepperTrackingSpeed + change
      let t := if t < 1 then 1 else if t > 1000 then 1000 else t
      { s with stepperTrackingSpeed := t }
    | 2 =>
      let h := s.homeSpeed + change
      let h := if h < 1 then 1 else if h > 1000 then 1000 else h
      { s with homeSpeed := h }
    | _ => s
  else
    let page : Nat := (((s.currentPageIndex : Int) + change) % 256).toNat
    let maxPage : Nat := if isDirty s then 5 else 4
    let page := if page < 1 then maxPage else if page > maxPage then 1 else page
    { s with currentPageIndex := page }

/-- Result of one `runTheStepper()` call: the updated state, the number of
`stepper.runSpeed()` calls issued, and the number of limit-switch
`digitalRead` calls performed (the C `&&` short-circuits, so at most one
switch is read per call). -/
structure StepperRun where
  state : SysState
  runSpeedCalls : Nat
  limitSwitchReads : Nat
  deriving DecidableEq

/-- `runTheStepper()`: when the motor runs forward and the end switch is
active (active-low: level `false`), or runs backward and the home switch
is active, `motorRunning` is reset to 0 and no step is issued; otherwise a
running motor gets exactly one `stepper.runSpeed()` call. -/
def runTheStepper (s : SysState) (endSwitchLevel homeSwitchLevel : Bool) :
    StepperRun :=
  if s.motorRunning ≠ 0 then
    if s.motorRunning > 0 ∧ endSwitchLevel = false then
      { state := { s with motorRunning := 0 }
        runSpeedCalls := 0, limitSwitchReads := 1 }
    else if s.motorRunning < 0 ∧ homeSwitchLevel = false then
      { state := { s with motorRunning := 0 }
        runSpeedCalls := 0, limitSwitchReads := 1 }
    else
      { state := s, runSpeedCalls := 1, limitSwitchReads := 1 }
  else
    { state := s, runSpeedCalls := 0, limitSwitchReads := 0 }

/-- The debounced inputs one `loop()` iteration consumes: whether the
button fell, whether the encoder clock fell, the DT pin level, the two
limit-switch levels, and whether the 300 ms blink timeout has expired. -/
structure LoopInputs where
  buttonFell : Bool
  clkFell : Bool
  dtHigh : Bool
  endSwitchLevel : Bool
  homeSwitchLevel : Bool
  blinkTimeoutExpired : Bool
  deriving DecidableEq

/-- The input-dispatch phase of `loop()`: handle a button press, then a
rotation, in that order. -/
def dispatchEvents (s : SysState) (mem : Nat → Nat) (inp : LoopInputs) :
    SysState × (Nat → Nat) :=
  let r := if inp.buttonFell then encoderPressed s mem else (s, mem)
  let s1 := if inp.clkFell then encoderRotated r.1 inp.dtHigh else r.1
  (s1, r.2)

/-- Observable outcome of one `loop()` iteration. -/
structure LoopResult where
  state : SysState
  eepromMem : Nat → Nat
  runSpeedCalls : Nat
  limitSwitchReads : Nat

/-- One iteration of `loop()`: dispatch the debounced input events, then
either run the blink timer (edit mode) or run the stepper (normal mode). -/
def loopIteration (s : SysState) (mem : Nat → Nat) (inp : LoopInputs) :
    LoopResult :=
  let r := dispatchEvents s mem inp
  if r.1.editMode then
    let s2 :=
      if inp.blinkTimeoutExpired then
        { r.1 with editModeBlinkDark := !r.1.editModeBlinkDark }
      else r.1
    { state := s2, eepromMem := r.2, runSpeedCalls := 0, limitSwitchReads := 0 }
  else
    let run := runTheStepper r.1 inp.endSwitchLevel inp.homeSwitchLevel
    { state := run.state, eepromMem := r.2
      runSpeedCalls := run.runSpeedCalls
      limitSwitchReads := run.limitSwitchReads }

/-- Folding a list of rotation events (DT levels) through
`encoderRotated`. -/
def applyRotations (s : SysState) (ds : List Bool) : SysState :=
  ds.foldl (fun t d => encoderRotated t d) s

/-! Concrete EEPROM images and states used by the concrete theorems. -/

/-- An erased EEPROM image: every cell holds `0xFF`. -/
def memAllFF : Nat → Nat := fun _ => 255

/-- An all-zero EEPROM image. -/
def memAllZero : Nat → Nat := fun _ => 0

/-- A dirty configuration (working tracking speed 2 against saved 1)
sitting on the save page (page 5), not in edit mode. -/
def saveBugState : SysState :=
  { initialState with stepperTrackingSpeed := 2, currentPageIndex := 5 }

/-- C1: evaluation of the code at the failing input.  With a dirty
configuration and `currentPageIndex = 5`, pressing the button runs
`saveSpeedConfiguration` (so the configuration becomes clean and the valid
page range shrinks to 1..4) and then sets `currentPageIndex = 0` — an
out-of-range page, not the page 1 the claim requires. -/
theorem C1_save_sets_page_zero :
    isDirty saveBugState = true ∧
    saveBugState.currentPageIndex = 5 ∧
    saveBugState.editMode = false ∧
    (encoderPressed saveBugState memAllFF).1.currentPageIndex = 0 ∧
    isDirty (encoderPressed saveBugState memAllFF).1 = false := by
  exact ⟨rfl, rfl, rfl, rfl, rfl⟩

/-- C2 (counterexample): with an all-zero EEPROM both words read back as 0,
which differs from the sentinel `0xFFFF`, so `readSpeedConfigFromEeprom`
adopts the stored value 0 verbatim — the working tracking speed ends up
outside `[1, 1000]`, refuting the claim's clamping clause. -/
theorem C2_load_no_clamp_counterexample :
    (readSpeedConfigFromEeprom initialState memAllZero).stepperTrackingSpeed = 0 ∧
    ¬ (1 ≤ (readSpeedConfigFromEeprom initialState memAllZero).stepperTrackingSpeed ∧
        (readSpeedConfigFromEeprom initialState memAllZero).stepperTrackingSpeed ≤ 1000) := by
  refine ⟨rfl, ?_⟩
  decide

/-- C2 (amended): after `readSpeedConfigFromEeprom`, if either stored word
equals `0xFFFF` both working speeds are the defaults (1, 100); if both
differ from `0xFFFF` the working speeds equal the stored words verbatim
(no clamping into `[1, 1000]` is performed); in every case the snapshot
fields equal the working values afterwards. -/
theorem C2_load_defaults_and_snapshot (s : SysState) (mem : Nat → Nat) :
    ((eepromWord mem stepper_speed_address = 0xFFFF ∨
      eepromWord mem home_speed_address = 0xFFFF) →
      (readSpeedConfigFromEeprom s mem).stepperTrackingSpeed = 1 ∧
      (readSpeedConfigFromEeprom s mem).homeSpeed = 100) ∧
    (eepromWord mem stepper_speed_address ≠ 0xFFFF →
      eepromWord mem home_speed_address ≠ 0xFFFF →
      (readSpeedConfigFromEeprom s mem).stepperTrackingSpeed =
        (eepromWord mem stepper_speed_address : Int) ∧
      (readSpeedConfigFromEeprom s mem).homeSpeed =
        (eepromWord mem home_speed_address : Int)) ∧
    (readSpeedConfigFromEeprom s mem).initialStepperTrackingSpeed =
      (readSpeedConfigFromEeprom s mem).stepperTrackingSpeed ∧
    (readSpeedConfigFromEeprom s mem).initialHomeSpeed =
      (readSpeedConfigFromEeprom s mem).homeSpeed := by
  unfold readSpeedConfigFromEeprom
  by_cases h1 : eepromWord mem stepper_speed_address = 0xFFFF <;>
    by_cases h2 : eepromWord mem home_speed_address = 0xFFFF <;>
    simp [h1, h2]

/-- C2 (witness): the amended load theorem applied to the erased image
(`0xFF` everywhere), where both words read the sentinel. -/
theorem C2_load_defaults_and_snapshot_witness :
    (readSpeedConfigFromEeprom initialState memAllFF).stepperTrackingSpeed = 1 ∧
    (readSpeedConfigFromEeprom initialState memAllFF).homeSpeed = 100 :=
  (C2_load_defaults_and_snapshot initialState memAllFF).1 (Or.inl (by decide))

/-- C4: `isDirty` is true exactly when a working speed differs from its
snapshot, and `saveSpeedConfiguration` copies both working speeds into the
snapshot in one step, after which `isDirty` is false. -/
theorem C4_dirty_iff_save_clears (s : SysState) (mem : Nat → Nat) :
    (isDirty s = true ↔
      (s.stepperTrackingSpeed ≠ s.initialStepperTrackingSpeed ∨
       s.homeSpeed ≠ s.initialHomeSpeed)) ∧
    (saveSpeedConfiguration s mem).1.initialStepperTrackingSpeed =
      s.stepperTrackingSpeed ∧
    (saveSpeedConfiguration s mem).1.initialHomeSpeed = s.homeSpeed ∧
    isDirty (saveSpeedConfiguration s mem).1 = false := by
  refine ⟨?_, rfl, rfl, ?_⟩
  · simp [isDirty]
  · simp [isDirty, saveSpeedConfiguration]

/-- A state outside edit mode on the tracking-speed page whose blink-phase
variable is still `true` from an earlier editing session, with the motor
homing. -/
def staleBlinkState : SysState :=
  { initialState with editModeBlinkDark := true, currentPageIndex := 1,
                      motorRunning := -1 }

/-- C6 (counterexample): pressing the button on the tracking-speed page
enters edit mode and stops the motor, but does not reset the blink phase:
`editModeBlinkDark` stays `true`, refuting the claim's "resets the blink
phase" clause (the handler touches neither `editModeBlinkDark` nor the
blink timer). -/
theorem C6_blink_not_reset_counterexample :
    staleBlinkState.editMode = false ∧
    staleBlinkState.editModeBlinkDark = true ∧
    (encoderPressed staleBlinkState memAllFF).1.editMode = true ∧
    (encoderPressed staleBlinkState memAllFF).1.motorRunning = 0 ∧
    (encoderPressed staleBlinkState memAllFF).1.editModeBlinkDark = true := by
  exact ⟨rfl, rfl, rfl, rfl, rfl⟩

/-- C6 (amended): pressing the button while not in edit mode on page 1 or
page 2 sets `editMode` to true and forces `motorRunning` to 0 regardless
of the prior motor state; the blink-phase variable is left unchanged. -/
theorem C6_enter_edit_stops_motor (s : SysState) (mem : Nat → Nat)
    (hE : s.editMode = false)
    (hP : s.currentPageIndex = 1 ∨ s.currentPageIndex = 2) :
    (encoderPressed s mem).1.editMode = true ∧
    (encoderPressed s mem).1.motorRunning = 0 ∧
    (encoderPressed s mem).1.editModeBlinkDark = s.editModeBlinkDark := by
  rcases hP with h | h <;> simp [encoderPressed, hE, h]

/-- C6 (witness): the amended theorem applied to a concrete state on the
home-speed page with the motor tracking. -/
theorem C6_enter_edit_stops_motor_witness :
    (encoderPressed
        { initialState with currentPageIndex := 2, motorRunning := 1 }
        memAllFF).1.editMode = true ∧
    (encoderPressed
        { initialState with currentPageIndex := 2, motorRunning := 1 }
        memAllFF).1.motorRunning = 0 ∧
    (encoderPressed
        { initialState with currentPageIndex := 2, motorRunning := 1 }
        memAllFF).1.editModeBlinkDark =
      ({ initialState with currentPageIndex := 2,
                           motorRunning := 1 } : SysState).editModeBlinkDark :=
  C6_enter_edit_stops_motor _ memAllFF rfl (Or.inr rfl)

/-- Rotation events never change the motor state. -/
theorem encoderRotated_motorRunning (s : SysState) (d : Bool) :
    (encoderRotated s d).motorRunning = s.motorRunning := by
  unfold encoderRotated
  by_cases h : s.editMode <;> simp [h]
  split <;> rfl

/-- A press event can only put the motor into Tracking (`motorRunning = 1`)
from Idle, or leave an already-tracking motor alone. -/
theorem encoderPressed_to_tracking (s : SysState) (mem : Nat → Nat)
    (h : (encoderPressed s mem).1.motorRunning = 1) :
    s.motorRunning = 0 ∨ s.motorRunning = 1 := by
  unfold encoderPressed at h
  by_cases hE : s.editMode
  · simp [hE] at h
    exact Or.inr h
  · simp [hE] at h
    split at h <;>
      simp [startStopButtonPressed, returnHomePressed,
            saveSpeedConfiguration] at h <;>
      first
        | (right; exact h)
        | (left
           by_cases hz : s.motorRunning = 0
           · exact hz
           · simp [hz] at h)

/-- `runTheStepper` either leaves `motorRunning` unchanged or resets it
to 0. -/
theorem runTheStepper_motorRunning (s : SysState) (e h : Bool) :
    (runTheStepper s e h).state.motorRunning = s.motorRunning ∨
    (runTheStepper s e h).state.motorRunning = 0 := by
  unfold runTheStepper
  split
  · split
    · right; rfl
    · split
      · right; rfl
      · left; rfl
  · left; rfl

/-- The input-dispatch phase can only reach Tracking from Idle (or keep an
already-tracking motor). -/
theorem dispatchEvents_to_tracking (s : SysState) (mem : Nat → Nat)
    (inp : LoopInputs)
    (h : (dispatchEvents s mem inp).1.motorRunning = 1) :
    s.motorRunning = 0 ∨ s.motorRunning = 1 := by
  unfold dispatchEvents at h
  by_cases hc : inp.clkFell <;> by_cases hb : inp.buttonFell <;>
    simp [hc, hb, encoderRotated_motorRunning] at h
  · exact encoderPressed_to_tracking s mem h
  · exact Or.inr h
  · exact encoderPressed_to_tracking s mem h
  · exact Or.inr h

/-- Reachable run for the C3 counterexample, step 1: from the power-on
state (erased EEPROM, so defaults load and the configuration is clean, on
page 3), the button is pressed on the start/stop page. -/
def runStep1 : LoopResult :=
  loopIteration (readSpeedConfigFromEeprom initialState memAllFF) memAllFF
    { buttonFell := true, clkFell := false, dtHigh := false,
      endSwitchLevel := true, homeSwitchLevel := true,
      blinkTimeoutExpired := false }

/-- Reachable run, step 2: the encoder is rotated clockwise, moving from
page 3 to page 4 (the return-home page) while the motor keeps tracking. -/
def runStep2 : LoopResult :=
  loopIteration runStep1.state runStep1.eepromMem
    { buttonFell := false, clkFell := true, dtHigh := true,
      endSwitchLevel := true, homeSwitchLevel := true,
      blinkTimeoutExpired := false }

/-- C3 (counterexample): after the two-iteration run above the system is
reachable with the motor Tracking (`motorRunning = 1`) on the return-home
page; a single button-press event then executes `returnHomePressed`, whose
one assignment moves the motor straight to Homing (`motorRunning = -1`)
with no intermediate Idle state — a direct `Tracking -> Homing`
transition. -/
theorem C3_tracking_to_homing_direct :
    runStep2.state.motorRunning = 1 ∧
    runStep2.state.editMode = false ∧
    runStep2.state.currentPageIndex = 4 ∧
    (encoderPressed runStep2.state runStep2.eepromMem).1.motorRunning = -1 := by
  exact ⟨rfl, rfl, rfl, rfl⟩

/-- C3 (amended): the opposite direction does hold — a loop iteration
whose final motor state is Tracking (`motorRunning = 1`) must have started
from Idle or from Tracking, never from Homing, so any run that reaches
Tracking from Homing passes through Idle at an iteration boundary.  (The
direct `Tracking -> Homing` transition of the counterexample remains
possible.) -/
theorem C3_homing_to_tracking_via_idle (s : SysState) (mem : Nat → Nat)
    (inp : LoopInputs)
    (h : (loopIteration s mem inp).state.motorRunning = 1) :
    s.motorRunning = 0 ∨ s.motorRunning = 1 := by
  unfold loopIteration at h
  by_cases hE : (dispatchEvents s mem inp).1.editMode
  · simp [hE] at h
    by_cases ht : inp.blinkTimeoutExpired <;> simp [ht] at h <;>
      exact dispatchEvents_to_tracking s mem inp h
  · simp [hE] at h
    rcases runTheStepper_motorRunning (dispatchEvents s mem inp).1
        inp.endSwitchLevel inp.homeSwitchLevel with hk | hk
    · rw [hk] at h
      exact dispatchEvents_to_tracking s mem inp h
    · rw [hk] at h
      omega

/-- C3 (witness): the amended theorem applied to the concrete iteration in
which the start/stop press moves the idle motor to Tracking. -/
theorem C3_homing_to_tracking_via_idle_witness :
    initialState.motorRunning = 0 ∨ initialState.motorRunning = 1 :=
  C3_homing_to_tracking_via_idle initialState memAllFF
    { buttonFell := true, clkFell := false, dtHigh := false,
      endSwitchLevel := true, homeSwitchLevel := true,
      blinkTimeoutExpired := false } rfl

/-- C5: outside edit mode, rotation cycles the page circularly over the
currently valid range: clockwise from the last valid page (5 when dirty, 4
when clean, recomputed from the dirty test at the rotation) lands on page
1, anticlockwise from page 1 lands on the last valid page, and interior
pages step by one. -/
theorem C5_page_cycle_circular (s : SysState)
    (hE : s.editMode = false)
    (h1 : 1 ≤ s.currentPageIndex)
    (h2 : s.currentPageIndex ≤ (if isDirty s then 5 else 4)) :
    (encoderRotated s true).currentPageIndex =
      (if s.currentPageIndex = (if isDirty s then 5 else 4) then 1
       else s.currentPageIndex + 1) ∧
    (encoderRotated s false).currentPageIndex =
      (if s.currentPageIndex = 1 then (if isDirty s then 5 else 4)
       else s.currentPageIndex - 1) := by
  cases hd : isDirty s <;>
    simp [hd] at h2 ⊢ <;>
    constructor <;>
    simp [encoderRotated, hE, hd] <;>
    split_ifs <;>
    omega

/-- C5 (witness): wrap-around at the end of the clean 4-page range: from
page 4 of a clean configuration, clockwise lands on page 1 and
anticlockwise lands on page 3. -/
theorem C5_page_cycle_circular_witness :
    (encoderRotated { initialState with currentPageIndex := 4 }
        true).currentPageIndex =
      (if ({ initialState with currentPageIndex := 4 } : SysState).currentPageIndex
          = (if isDirty { initialState with currentPageIndex := 4 } then 5 else 4)
       then 1
       else ({ initialState with
                currentPageIndex := 4 } : SysState).currentPageIndex + 1) ∧
    (encoderRotated { initialState with currentPageIndex := 4 }
        false).currentPageIndex =
      (if ({ initialState with currentPageIndex := 4 } : SysState).currentPageIndex = 1
       then (if isDirty { initialState with currentPageIndex := 4 } then 5 else 4)
       else ({ initialState with
                currentPageIndex := 4 } : SysState).currentPageIndex - 1) :=
  C5_page_cycle_circular { initialState with currentPageIndex := 4 }
    rfl (by decide) (by decide)

/-- Behaviour of one `runTheStepper` call: a forward-running motor with the
end switch active (level low) stops without stepping; a backward-running
motor with the home switch active stops without stepping; otherwise a
running motor is left unchanged and exactly one `runSpeed` call is
issued. -/
theorem runTheStepper_spec (s : SysState) (e h : Bool) :
    (s.motorRunning > 0 → e = false →
      (runTheStepper s e h).state.motorRunning = 0 ∧
      (runTheStepper s e h).runSpeedCalls = 0) ∧
    (s.motorRunning < 0 → h = false →
      (runTheStepper s e h).state.motorRunning = 0 ∧
      (runTheStepper s e h).runSpeedCalls = 0) ∧
    (s.motorRunning ≠ 0 →
      ¬ (s.motorRunning > 0 ∧ e = false) →
      ¬ (s.motorRunning < 0 ∧ h = false) →
      (runTheStepper s e h).state = s ∧
      (runTheStepper s e h).runSpeedCalls = 1) := by
  unfold runTheStepper
  refine ⟨?_, ?_, ?_⟩
  · intro hm he
    rw [if_pos (by omega : s.motorRunning ≠ 0), if_pos ⟨hm, he⟩]
    exact ⟨rfl, rfl⟩
  · intro hm hh
    rw [if_pos (by omega : s.motorRunning ≠ 0),
        if_neg (fun hc => by omega), if_pos ⟨hm, hh⟩]
    exact ⟨rfl, rfl⟩
  · intro hm h1 h2
    rw [if_pos hm, if_neg h1, if_neg h2]
    exact ⟨rfl, rfl⟩

/-- C7: on a loop iteration that ends up outside edit mode, a tracking
motor with the end limit switch active (active-low: level `false`) is
stopped and no step is issued; a homing motor with the home switch active
is stopped and no step is issued; otherwise a running motor gets exactly
one `stepper.runSpeed` call and is otherwise untouched. -/
theorem C7_limit_switch_failsafe (s : SysState) (mem : Nat → Nat)
    (inp : LoopInputs)
    (hE : (dispatchEvents s mem inp).1.editMode = false) :
    ((dispatchEvents s mem inp).1.motorRunning > 0 →
      inp.endSwitchLevel = false →
      (loopIteration s mem inp).state.motorRunning = 0 ∧
      (loopIteration s mem inp).runSpeedCalls = 0) ∧
    ((dispatchEvents s mem inp).1.motorRunning < 0 →
      inp.homeSwitchLevel = false →
      (loopIteration s mem inp).state.motorRunning = 0 ∧
      (loopIteration s mem inp).runSpeedCalls = 0) ∧
    ((dispatchEvents s mem inp).1.motorRunning ≠ 0 →
      ¬ ((dispatchEvents s mem inp).1.motorRunning > 0 ∧
          inp.endSwitchLevel = false) →
      ¬ ((dispatchEvents s mem inp).1.motorRunning < 0 ∧
          inp.homeSwitchLevel = false) →
      (loopIteration s mem inp).state = (dispatchEvents s mem inp).1 ∧
      (loopIteration s mem inp).runSpeedCalls = 1) := by
  have hs := runTheStepper_spec (dispatchEvents s mem inp).1
    inp.endSwitchLevel inp.homeSwitchLevel
  simp only [loopIteration, hE, Bool.false_eq_true, if_false]
  exact hs

/-- A state with the motor tracking, used to witness the fail-safe stop. -/
def trackingIdleLoopState : SysState :=
  { initialState with motorRunning := 1 }

/-- Loop inputs with no user events and the end limit switch active. -/
def endStopInputs : LoopInputs :=
  { buttonFell := false, clkFell := false, dtHigh := false,
    endSwitchLevel := false, homeSwitchLevel := true,
    blinkTimeoutExpired := false }

/-- C7 (witness): a tracking motor hitting the end switch on an eventless
iteration stops with no `runSpeed` call. -/
theorem C7_limit_switch_failsafe_witness :
    (loopIteration trackingIdleLoopState memAllFF endStopInputs).state.motorRunning = 0 ∧
    (loopIteration trackingIdleLoopState memAllFF endStopInputs).runSpeedCalls = 0 :=
  (C7_limit_switch_failsafe trackingIdleLoopState memAllFF endStopInputs
    rfl).1 (by decide) rfl

/-- C10: on a loop iteration that ends up in edit mode after input
dispatch, the stepper-run path is skipped entirely: no `runSpeed` call is
issued, no limit switch is read, and the motor state is exactly what the
input dispatch left it (limit switches cannot change it). -/
theorem C10_no_stepping_in_edit_mode (s : SysState) (mem : Nat → Nat)
    (inp : LoopInputs)
    (hE : (dispatchEvents s mem inp).1.editMode = true) :
    (loopIteration s mem inp).runSpeedCalls = 0 ∧
    (loopIteration s mem inp).limitSwitchReads = 0 ∧
    (loopIteration s mem inp).state.motorRunning =
      (dispatchEvents s mem inp).1.motorRunning := by
  simp only [loopIteration, hE, if_true]
  by_cases hb : inp.blinkTimeoutExpired <;> simp [hb]

/-- An edit-mode state on the tracking-speed page. -/
def editingState : SysState :=
  { initialState with editMode := true, currentPageIndex := 1 }

/-- Loop inputs with no user events and both limit switches active, to
show they are ignored in edit mode. -/
def bothSwitchesActiveInputs : LoopInputs :=
  { buttonFell := false, clkFell := false, dtHigh := false,
    endSwitchLevel := false, homeSwitchLevel := false,
    blinkTimeoutExpired := true }

/-- C10 (witness): an edit-mode iteration with both limit switches active
issues no step and reads no switch. -/
theorem C10_no_stepping_in_edit_mode_witness :
    (loopIteration editingState memAllFF bothSwitchesActiveInputs).runSpeedCalls = 0 ∧
    (loopIteration editingState memAllFF bothSwitchesActiveInputs).limitSwitchReads = 0 ∧
    (loopIteration editingState memAllFF bothSwitchesActiveInputs).state.motorRunning =
      (dispatchEvents editingState memAllFF bothSwitchesActiveInputs).1.motorRunning :=
  C10_no_stepping_in_edit_mode editingState memAllFF bothSwitchesActiveInputs rfl

/-- One rotation event keeps both working speeds inside `[1, 1000]` (the
edit-mode branches clamp, the navigation branch does not touch them) and
never changes the saved snapshot or the edit flag. -/
theorem encoderRotated_speed_invariant (s : SysState) (d : Bool)
    (ht : 1 ≤ s.stepperTrackingSpeed ∧ s.stepperTrackingSpeed ≤ 1000)
    (hh : 1 ≤ s.homeSpeed ∧ s.homeSpeed ≤ 1000) :
    (1 ≤ (encoderRotated s d).stepperTrackingSpeed ∧
      (encoderRotated s d).stepperTrackingSpeed ≤ 1000) ∧
    (1 ≤ (encoderRotated s d).homeSpeed ∧
      (encoderRotated s d).homeSpeed ≤ 1000) ∧
    (encoderRotated s d).initialStepperTrackingSpeed =
      s.initialStepperTrackingSpeed ∧
    (encoderRotated s d).initialHomeSpeed = s.initialHomeSpeed ∧
    (encoderRotated s d).editMode = s.editMode := by
  unfold encoderRotated
  by_cases hE : s.editMode
  · rw [if_pos hE]
    split
    · refine ⟨?_, hh, rfl, rfl, rfl⟩
      dsimp only
      split_ifs <;> omega
    · refine ⟨ht, ?_, rfl, rfl, rfl⟩
      dsimp only
      split_ifs <;> omega
    · exact ⟨ht, hh, rfl, rfl, rfl⟩
  · rw [if_neg (by simp [hE])]
    exact ⟨ht, hh, rfl, rfl, rfl⟩

/-- C8: any sequence of edit-mode rotations (adjust operations, each
adding ±1 and clamping) keeps both working speeds inside `[1, 1000]`, and
none of them changes the saved snapshot.  The statement quantifies over
all event lists, so it covers every intermediate step of a longer
sequence. -/
theorem C8_adjust_keeps_bounds (s : SysState) (ds : List Bool)
    (hE : s.editMode = true)
    (ht : 1 ≤ s.stepperTrackingSpeed ∧ s.stepperTrackingSpeed ≤ 1000)
    (hh : 1 ≤ s.homeSpeed ∧ s.homeSpeed ≤ 1000) :
    (1 ≤ (applyRotations s ds).stepperTrackingSpeed ∧
      (applyRotations s ds).stepperTrackingSpeed ≤ 1000) ∧
    (1 ≤ (applyRotations s ds).homeSpeed ∧
      (applyRotations s ds).homeSpeed ≤ 1000) ∧
    (applyRotations s ds).initialStepperTrackingSpeed =
      s.initialStepperTrackingSpeed ∧
    (applyRotations s ds).initialHomeSpeed = s.initialHomeSpeed := by
  induction ds generalizing s with
  | nil => exact ⟨ht, hh, rfl, rfl⟩
  | cons d ds ih =>
    have hcons : applyRotations s (d :: ds) =
        applyRotations (encoderRotated s d) ds := rfl
    have hstep := encoderRotated_speed_invariant s d ht hh
    have hrec := ih (encoderRotated s d)
      (by rw [hstep.2.2.2.2]; exact hE) hstep.1 hstep.2.1
    rw [hcons]
    refine ⟨hrec.1, hrec.2.1, ?_, ?_⟩
    · rw [hrec.2.2.1, hstep.2.2.1]
    · rw [hrec.2.2.2, hstep.2.2.2.1]

/-- C8 (witness): three adjust events on the tracking-speed page from the
default configuration (two up, one down) keep the bounds and the
snapshot. -/
theorem C8_adjust_keeps_bounds_witness :
    (1 ≤ (applyRotations editingState [true, true, false]).stepperTrackingSpeed ∧
      (applyRotations editingState [true, true, false]).stepperTrackingSpeed ≤ 1000) ∧
    (1 ≤ (applyRotations editingState [true, true, false]).homeSpeed ∧
      (applyRotations editingState [true, true, false]).homeSpeed ≤ 1000) ∧
    (applyRotations editingState [true, true, false]).initialStepperTrackingSpeed =
      editingState.initialStepperTrackingSpeed ∧
    (applyRotations editingState [true, true, false]).initialHomeSpeed =
      editingState.initialHomeSpeed :=
  C8_adjust_keeps_bounds editingState [true, true, false] rfl
    (by decide) (by decide)

/-- Big-endian encode/decode round-trip at the byte level: writing a value
below `2^16` with `writeIntIntoEEPROM` and decoding the same word with the
`(high << 8) | low` expression of `readSpeedConfigFromEeprom` returns the
value. -/
theorem eepromWord_writeIntIntoEEPROM (mem : Nat → Nat) (a v : Nat)
    (hv : v < 65536) :
    eepromWord (writeIntIntoEEPROM mem a (v : Int)) a = v := by
  have h1 : v >>> 8 = v / 256 := Nat.shiftRight_eq_div_pow v 8
  have h2 : v &&& 0xFF = v % 256 := by
    have h255 : (0xFF : Nat) = 2 ^ 8 - 1 := by norm_num
    rw [h255, Nat.and_pow_two_sub_one_eq_mod]
  have hd : v / 256 < 256 := by omega
  have hm : v % 256 < 256 := Nat.mod_lt _ (by norm_num)
  have ra : EEPROMread (writeIntIntoEEPROM mem a (v : Int)) a = v / 256 := by
    simp [EEPROMread, writeIntIntoEEPROM, EEPROMwrite, h1]
    omega
  have rb : EEPROMread (writeIntIntoEEPROM mem a (v : Int)) (a + 1)
      = v % 256 := by
    simp [EEPROMread, writeIntIntoEEPROM, EEPROMwrite, h2]
  rw [eepromWord, ra, rb, Nat.shiftLeft_eq,
      show v / 256 * 2 ^ 8 = 2 ^ 8 * (v / 256) from Nat.mul_comm _ _,
      ← Nat.mul_add_lt_is_or hm (v / 256)]
  omega

/-- C9: for any value `v` in `[0, 65535]` other than the erase sentinel
`0xFFFF`, writing `v` at the tracking-speed word address and then loading
via `readSpeedConfigFromEeprom` yields `v` back as the working tracking
speed, provided the other stored word is not the sentinel either. -/
theorem C9_word_roundtrip (mem : Nat → Nat) (s : SysState) (v : Nat)
    (hv : v ≤ 65535) (hne : v ≠ 0xFFFF)
    (hother : eepromWord (writeIntIntoEEPROM mem stepper_speed_address (v : Int))
        home_speed_address ≠ 0xFFFF) :
    (readSpeedConfigFromEeprom s
        (writeIntIntoEEPROM mem stepper_speed_address (v : Int))).stepperTrackingSpeed
      = (v : Int) := by
  have hw := eepromWord_writeIntIntoEEPROM mem stepper_speed_address v (by omega)
  simp only [readSpeedConfigFromEeprom, hw]
  rw [if_pos ⟨hne, hother⟩]

/-- C9 (witness): writing 1000 over an all-zero image and loading returns
tracking speed 1000. -/
theorem C9_word_roundtrip_witness :
    (readSpeedConfigFromEeprom initialState
        (writeIntIntoEEPROM memAllZero stepper_speed_address
          ((1000 : Nat) : Int))).stepperTrackingSpeed = ((1000 : Nat) : Int) :=
  C9_word_roundtrip memAllZero initialState 1000 (by norm_num) (by norm_num)
    (by decide)
